import Mathlib

/-!
Formal model of the loca-x-bot pipeline (`src/main.py`).

The script reads an RSS feed, filters entries (link present, not yet posted,
within a recency window), orders the admitted entries by publish time, and for
each one fetches the article, summarizes it, composes a tweet and — depending
on the `DRY_RUN` mode — delivers it via an IFTTT webhook and/or records its id
in a JSON state file.

Modelling conventions:
* Python strings are Lean `String`s; character-level operations (slicing,
  length) are carried out on `String.data : List Char`, which matches Python's
  code-point semantics (`len`, `s[:k]`).
* feedparser entries are records of optional fields (`getattr` with a default
  is `Option.getD`); `published_parsed` is modelled as an optional UTC
  timestamp in integer seconds, which is what
  `datetime(*published_parsed[:6], tzinfo=utc).timestamp()` yields.
* The external collaborators — article fetch + main-text extraction
  (`fetch_article_html`/`extract_main_text`), the OpenAI chat call inside
  `summarize_for_x` (including its regex post-processing of the returned
  text), and the HTTP result of `requests.post` — are abstracted as an
  `Oracle`; a Python exception raised by a collaborator is an `Except.error`.
  The client-side 140-character rounding of the summary and all composition
  logic are embedded concretely.
* The state file `data.json` is `Option (List String)` (`none` = missing or
  unreadable file, which `load_posted_ids` treats as the empty set); the
  in-memory Python `set` is a duplicate-free `List String` (only membership
  and `sorted(...)` of it are ever observed). File writes are modelled as
  always succeeding.
* `time.sleep(2)` is modelled by accumulating seconds in a counter, and the
  `print` of the per-item exception handler by accumulating log strings.
-/

namespace LocaXBot

/-- One feed entry as the script sees it: `title`, `link` and `id` are
optional string attributes (`getattr(entry, ..., default)`), `published` is
the optional publish time of `published_parsed`, as a UTC timestamp in
seconds (an `Int`: `datetime.timestamp()` is negative for pre-1970 dates). -/
structure Entry where
  title : Option String
  link : Option String
  id : Option String
  published : Option Int
deriving DecidableEq

/-- Python truthiness of an optional string: `None` and `""` are falsy.
The source guards the link with `if not link:`. -/
def pyTruthyStr : Option String → Bool
  | none => false
  | some s => !s.isEmpty

/-- Python slicing `l[:k]` for a possibly negative `k`: a nonnegative bound
keeps the first `k` elements, a negative bound drops the last `-k`. -/
def pySlice (k : Int) (l : List Char) : List Char :=
  if 0 ≤ k then l.take k.toNat else l.take (l.length - (-k).toNat)

/-- Python `str.strip()`: drop leading and trailing whitespace. -/
def pyStrip (s : String) : String :=
  String.mk (((s.data.dropWhile Char.isWhitespace).reverse.dropWhile
    Char.isWhitespace).reverse)

/-- The client-side rounding at the end of `summarize_for_x`
(src/main.py:127-129): a summary longer than 140 characters becomes its first
138 characters followed by the one-character marker `…`. -/
def truncate140 (s : String) : String :=
  if s.length > 140 then String.mk (s.data.take 138 ++ ['…']) else s

/-- The four characters of the fixed message head `【新着】` used when the
tweet body is composed (src/main.py:203). -/
def tweetHead : List Char := ['【', '新', '着', '】']

/-- Tweet composition (src/main.py:203-206): the body is
`【新着】` + summary + `" "` + link; if its length exceeds 270 the summary is
re-cut to `270 - len(link) - 1` characters and an `…` marker is appended
before the space and the link. -/
def tweet_body (summary link : String) : String :=
  let raw := String.mk (tweetHead ++ summary.data ++ [' '] ++ link.data)
  if raw.length > 270 then
    String.mk (tweetHead ++ pySlice (270 - (link.length : Int) - 1) summary.data
      ++ ['…', ' '] ++ link.data)
  else raw

/-- A 266-character summary: together with a 30-character link the raw
composed message has 301 characters, so the shortening branch fires. -/
def c1Summary : String := String.mk (List.replicate 266 's')

/-- A 30-character link for the composition counterexample. -/
def c1Link : String := String.mk (List.replicate 30 'l')

/-- A 200-character summary, the spec's own example input for truncation. -/
def c7Long : String := String.mk (List.replicate 200 'a')

/-- Age of an entry in hours (src/main.py:51-56): with a publish time it is
`(now_utc - published).total_seconds() / 3600.0`, which for integer-second
timestamps is the exact rational `(now - ts) / 3600`; without one it is `0`
(the entry counts as fresh). -/
def entry_age_hours (e : Entry) (now : Int) : ℚ :=
  match e.published with
  | some ts => ((now - ts : Int) : ℚ) / 3600
  | none => 0

/-- Age of an entry in seconds; `0` when the publish time is absent. -/
def entry_age_seconds (e : Entry) (now : Int) : Int :=
  match e.published with
  | some ts => now - ts
  | none => 0

/-- The id under which an entry is tracked (src/main.py:166):
`getattr(entry, "id", link)` — the `id` attribute when present, otherwise the
link attribute. -/
def entryIdOf (e : Entry) : Option String :=
  match e.id with
  | some i => some i
  | none => e.link

/-- Membership test `entry_id in posted_ids` (src/main.py:167); an entry with
neither id nor link never reaches this test, and its id is vacuously not a
member. -/
def idMem (posted : List String) (e : Entry) : Bool :=
  match entryIdOf e with
  | some i => decide (i ∈ posted)
  | none => false

/-- Outcome of the eligibility filter for one raw entry. -/
inductive Decision where
  | admitted
  | skipNoLink
  | skipAlreadyProcessed
  | skipStale
deriving DecidableEq

/-- The eligibility filter for one raw entry (src/main.py:157-176): skip when
the link is falsy (`if not link:`), else skip when the tracked id is already
recorded, else skip when the age exceeds `MAX_AGE_HOURS`
(integer-seconds form, equivalent to the source's hour comparison by
`entry_age_hours_gt_iff`), else the entry is admitted. -/
def decideEntry (posted : List String) (now maxAge : Int) (e : Entry) : Decision :=
  if pyTruthyStr e.link = false then .skipNoLink
  else if idMem posted e = true then .skipAlreadyProcessed
  else if 3600 * maxAge < entry_age_seconds e now then .skipStale
  else .admitted

/-- An entry whose link attribute is present but is the empty string: Python
`if not link:` treats it as missing. -/
def emptyLinkEntry : Entry := ⟨some "t", some "", some "x", none⟩

/-- A well-formed fresh entry used to witness the eligibility
characterisation. -/
def c3Entry : Entry := ⟨some "t", some "http-a", some "u", some 400⟩

/-- Lexicographic code-point comparison of character lists: Python's `<=` on
strings, used by `sorted(...)`. -/
def lexLe : List Char → List Char → Bool
  | [], _ => true
  | _ :: _, [] => false
  | a :: as, b :: bs =>
    if a.toNat < b.toNat then true
    else if b.toNat < a.toNat then false
    else lexLe as bs

/-- Python string order as a decidable relation on `String`. -/
def idOrder (a b : String) : Prop := lexLe a.data b.data = true

instance : DecidableRel idOrder := fun _ _ => instDecidableEqBool _ _

/-- Duplicate removal with an accumulator of already-seen elements; applied
with `[]` it keeps the first occurrence of each element, which is the
membership semantics of Python's `set(...)` constructor. -/
def pyDedup (seen : List String) : List String → List String
  | [] => []
  | x :: xs => if x ∈ seen then pyDedup seen xs else x :: pyDedup (x :: seen) xs

/-- State-file read (src/main.py:35-42): a missing or unreadable file yields
the empty set, otherwise the JSON array's members form the set. -/
def load_posted_ids (file : Option (List String)) : List String :=
  pyDedup [] (file.getD [])

/-- State-file write (src/main.py:44-49): the set's elements are sorted and
only the first 200 are persisted (`sorted(list(ids))[:200]`). `insertionSort`
with a total order is extensionally the unique sorted arrangement, hence
agrees with Python's `sorted`. -/
def save_posted_ids (ids : List String) : Option (List String) :=
  some ((ids.insertionSort idOrder).take 200)

/-- Python `set.add`: appends only when absent, so the list stays
duplicate-free (only membership and the sorted view are ever observed). -/
def setInsert (x : String) (l : List String) : List String :=
  if x ∈ l then l else l ++ [x]

/-- Outcome reported by the delivery webhook for one `requests.post`:
a 2xx response, a non-2xx response, or a raised transport exception. -/
inductive PostResp where
  | respOk
  | respErr (code : Nat) (body : String)
  | exn (msg : String)
deriving DecidableEq

/-- The external collaborators of one run, fixed for its duration:
`fetchText` is `fetch_article_html` + `extract_main_text` for a given URL
(an `Except.error` is a raised exception, e.g. a non-2xx status);
`chatSummary` is the OpenAI chat call of `summarize_for_x` together with its
regex post-processing of the returned text (URL and whitespace cleanup), for
a given (title, snippet); `deliver` is the webhook's response to a payload. -/
structure Oracle where
  fetchText : String → Except String String
  chatSummary : String → String → Except String String
  deliver : String → PostResp

/-- The summarization step (src/main.py:95-130): the collaborator is called
on the title and the first 2000 characters of the text; its result is then
rounded client-side by `truncate140`. An API exception propagates. -/
def summarize_for_x (chat : String → String → Except String String)
    (title text : String) : Except String String :=
  match chat title (String.mk (text.data.take 2000)) with
  | .error m => .error m
  | .ok s => .ok (truncate140 s)

/-- The delivery function (src/main.py:132-145), with exception potential
made explicit in the result type: a falsy (stripped) webhook URL only logs a
warning and returns; otherwise the response — 2xx, non-2xx, or a raised
exception — is caught and logged. Every path returns `.ok` with its log
lines. -/
def post_to_ifttt (url : String) (resp : PostResp) : Except String (List String) :=
  if (pyStrip url).isEmpty then
    .ok ["IFTTT_WEBHOOK_URL が未設定のため送信をスキップします"]
  else
    match resp with
    | .respOk => .ok ["IFTTTへ送信 OK"]
    | .respErr code body => .ok ["IFTTT送信エラー: " ++ toString code ++ " " ++ body]
    | .exn m => .ok ["IFTTT送信中に例外: " ++ m]

/-- Run configuration: `MAX_FETCH`, `MAX_AGE_HOURS`, the `DRY_RUN` mode
string, and the current UTC time in seconds. -/
structure Config where
  maxFetch : Nat
  maxAgeHours : Int
  dryRun : String
  now : Int

/-- Observable state threaded through the processing loop: the in-memory
`posted_ids` set, the `data.json` contents, the payloads handed to the
delivery collaborator, the messages printed by the per-item exception
handler, the seconds slept, and `posted_count`. -/
structure St where
  postedIds : List String
  dataFile : Option (List String)
  deliveries : List String
  failLogs : List String
  sleepSecs : Nat
  postedCount : Nat
deriving DecidableEq

/-- State at the start of a run (src/main.py:151): the persisted ids are
loaded, nothing is delivered, logged, slept or counted yet. -/
def initSt (file0 : Option (List String)) : St :=
  ⟨load_posted_ids file0, file0, [], [], 0, 0⟩

/-- The eligibility pass of `main` (src/main.py:157-176): the first
`MAX_FETCH` raw entries are filtered by `decideEntry` against the loaded id
set; survivors keep their feed order. -/
def eligibleEntries (cfg : Config) (posted : List String) (entries : List Entry) :
    List Entry :=
  (entries.take cfg.maxFetch).filter
    (fun e => decideEntry posted cfg.now cfg.maxAgeHours e = .admitted)

/-- Sort key of the orderer (src/main.py:183-185): the publish timestamp,
`0` when absent. -/
def published_ts (e : Entry) : Int :=
  match e.published with
  | some ts => ts
  | none => 0

/-- Comparison used to order admitted entries (ascending publish time). -/
def entryOrder (a b : Entry) : Prop := published_ts a ≤ published_ts b

instance : DecidableRel entryOrder := fun _ _ => Int.decLe _ _

instance : IsTotal Entry entryOrder :=
  ⟨fun a b => Int.le_total (published_ts a) (published_ts b)⟩

instance : IsTrans Entry entryOrder := ⟨fun _ _ _ => Int.le_trans⟩

/-- The orderer (src/main.py:187): `eligible.sort(key=_published_ts)`.
Python's sort is stable and ascending; a stable ascending sort is determined
by its comparison, and Mathlib's `insertionSort` is exactly such a sort
(`List.pair_sublist_insertionSort`). -/
def orderEntries (l : List Entry) : List Entry := l.insertionSort entryOrder

/-- What the `try:` block of the loop body (src/main.py:195-206) produces for
one admitted entry before the dry-run branch: a raised exception (from the
fetch or the summarization call), the short-text skip (`len(text) < 100`),
or the composed tweet plus the id to record. -/
inductive ItemOutcome where
  | errored (msg : String)
  | tooShort
  | ready (tweet : String) (entryId : String)
deriving DecidableEq

/-- Evaluate the `try:` block for one entry: fetch and extract the text from
the entry's link, gate on a minimum of 100 characters, summarize, and compose
the tweet with `tweet_body`. The recorded id is `entryIdOf`; entries reaching
the loop always have a truthy link, so the `""` default is never observed. -/
def itemOutcome (oracle : Oracle) (e : Entry) : ItemOutcome :=
  let title := e.title.getD "(no title)"
  let link := e.link.getD ""
  match oracle.fetchText link with
  | .error m => .errored m
  | .ok text =>
    if text.length < 100 then .tooShort
    else
      match summarize_for_x oracle.chatSummary title text with
      | .error m => .errored m
      | .ok summary => .ready (tweet_body summary link) ((entryIdOf e).getD "")

/-- One iteration of the processing loop (src/main.py:190-227): an exception
is caught and logged (the handler prints only the exception text); a
too-short text is skipped silently; otherwise the dry-run branch runs —
`print-only` only counts, `record-only` records the id and saves, and any
other mode (the production `"none"` path) invokes the delivery collaborator,
records the id, saves, sleeps 2 seconds and counts. -/
def processEntry (cfg : Config) (oracle : Oracle) (st : St) (e : Entry) : St :=
  match itemOutcome oracle e with
  | .errored m =>
    { st with failLogs := st.failLogs ++ ["  → 失敗: " ++ m ++ ". 次のエントリを試します。"] }
  | .tooShort => st
  | .ready tweet entryId =>
    if cfg.dryRun = "print-only" then
      { st with postedCount := st.postedCount + 1 }
    else if cfg.dryRun = "record-only" then
      { st with postedIds := setInsert entryId st.postedIds,
                dataFile := save_posted_ids (setInsert entryId st.postedIds),
                postedCount := st.postedCount + 1 }
    else
      { st with deliveries := st.deliveries ++ [tweet],
                postedIds := setInsert entryId st.postedIds,
                dataFile := save_posted_ids (setInsert entryId st.postedIds),
                sleepSecs := st.sleepSecs + 2,
                postedCount := st.postedCount + 1 }

/-- The processing loop over the ordered admitted entries. -/
def runLoop (cfg : Config) (oracle : Oracle) (st : St) (l : List Entry) : St :=
  l.foldl (processEntry cfg oracle) st

/-- One whole run of `main` (src/main.py:148-229): load the persisted ids,
return immediately when the feed is empty, filter and return when nothing is
admitted, otherwise process the admitted entries oldest-first. The returned
state is the run's report: `postedCount` items processed under `cfg.dryRun`. -/
def main (cfg : Config) (oracle : Oracle) (entries : List Entry)
    (file0 : Option (List String)) : St :=
  let st0 := initSt file0
  if entries.isEmpty then st0
  else
    let eligible := eligibleEntries cfg st0.postedIds entries
    if eligible.isEmpty then st0
    else runLoop cfg oracle st0 (orderEntries eligible)

/-- An item completes (reaches the dry-run branch and is counted) exactly
when its outcome is `ready`. -/
def completes (oracle : Oracle) (e : Entry) : Bool :=
  match itemOutcome oracle e with
  | .ready _ _ => true
  | _ => false

/-- Text of 120 characters, long enough to pass the 100-character gate. -/
def okText : String := String.mk (List.replicate 120 'x')

/-- A collaborator bundle whose calls all succeed. -/
def demoOracle : Oracle :=
  ⟨fun _ => .ok okText, fun _ _ => .ok "S", fun _ => .respOk⟩

/-- A fresh entry with link `L1` and id `i1`, published 100 seconds ago. -/
def demoEntry : Entry := ⟨some "t1", some "L1", some "i1", some 900⟩

/-- The tweet composed for `demoEntry` under `demoOracle`. -/
def demoTweet : String := tweet_body "S" "L1"

/-- Configuration in `record-only` mode. -/
def recCfg : Config := ⟨20, 168, "record-only", 1000⟩

/-- Configuration with a misspelled mode string. -/
def typoCfg : Config := ⟨20, 168, "record only", 1000⟩

/-- An entry published `k` seconds after the reference time `T = 1000`. -/
def entryT (k : Int) : Entry := ⟨some "t", some "l", some "i", some (1000 + k)⟩

/-- An entry published one hour before the epoch (publish timestamps are
reals; RSS dates before 1970 yield negative ones). -/
def preEpochEntry : Entry := ⟨some "old", some "lo", some "io", some (-3600)⟩

/-- An entry with no publish time at all. -/
def noTsEntry : Entry := ⟨some "new", some "ln", some "in", none⟩

/-- First of two distinct entries sharing the publish time `T + 2`. -/
def twinA : Entry := ⟨some "A", some "la", some "ia", some 1002⟩

/-- Second of two distinct entries sharing the publish time `T + 2`. -/
def twinB : Entry := ⟨some "B", some "lb", some "ib", some 1002⟩

/-- A stale entry: published at the epoch, 194 hours before the reference
time below. -/
def staleEntry : Entry := ⟨some "s", some "ls", some "is", some 0⟩

/-- Configuration whose current time makes `staleEntry` older than the
168-hour window. -/
def staleCfg : Config := ⟨20, 168, "none", 700000⟩

/-- A collaborator bundle whose article fetch always raises `boom`. -/
def c5FailOracle : Oracle :=
  ⟨fun _ => .error "boom", fun _ _ => .ok "S", fun _ => .respOk⟩

/-- An entry titled `TITLE`, used to inspect the failure log. -/
def c5Entry : Entry := ⟨some "TITLE", some "LX", some "ix", some 900⟩

/-- Production configuration (`DRY_RUN = "none"`), clock at 1000. -/
def stdCfg : Config := ⟨20, 168, "none", 1000⟩

/-- First of the three-entry example feed; completes. -/
def e1 : Entry := ⟨some "t1", some "L1", some "i1", some 901⟩

/-- Second of the three-entry example feed; its fetch raises. -/
def e2 : Entry := ⟨some "t2", some "L2", some "i2", some 902⟩

/-- Third of the three-entry example feed; completes. -/
def e3 : Entry := ⟨some "t3", some "L3", some "i3", some 903⟩

/-- Collaborators that raise exactly on the second entry's link. -/
def c5Oracle3 : Oracle :=
  ⟨fun u => if u = "L2" then .error "boom" else .ok okText,
   fun _ _ => .ok "S", fun _ => .respOk⟩

/-- Invariant tying the state file to the in-memory set: either nothing has
been recorded yet (the file is still the loaded one and the set is its
contents), or the file is exactly the saved image of the current set. -/
def fileInv (file0 : Option (List String)) (st : St) : Prop :=
  (st.dataFile = file0 ∧ st.postedIds = load_posted_ids file0) ∨
  st.dataFile = save_posted_ids st.postedIds

/-- A one-entry feed whose id `bb` joins the previously persisted id `aa`. -/
def c4SmallEntry : Entry := ⟨some "t", some "LB", some "bb", some 900⟩

/-- Two hundred distinct persisted ids, all lexicographically below `zzz`,
already sorted. -/
def ids200 : List String :=
  (List.range 200).map
    (fun n => String.mk ['a', Char.ofNat (65 + n / 20), Char.ofNat (65 + n % 20)])

/-- A fresh completing entry whose id `zzz` sorts after all of `ids200`. -/
def capEntry : Entry := ⟨some "T", some "LK", some "zzz", some 900⟩

/-- Length of a packed character list, definitionally `List.length`. -/
theorem length_mk (l : List Char) : (String.mk l).length = l.length := rfl

set_option maxRecDepth 10000 in
/-- C1: at a summary of 266 characters and a link of 30 characters the raw
composed message has 301 > 270 characters, so the shortening step runs; it
does reduce only the summary (to 239 characters) and keeps marker, space and
link intact, but the recomposed message has 275 characters — the `keep`
arithmetic at src/main.py:205 ignores the 4-character head and the added
marker, so the claimed final bound of 270 is exceeded whenever the branch
fires. -/
theorem c1_compose_exceeds_bound :
    (String.mk (tweetHead ++ c1Summary.data ++ [' '] ++ c1Link.data)).length = 301 ∧
    tweet_body c1Summary c1Link =
      String.mk (tweetHead ++ c1Summary.data.take 239 ++ ['…', ' '] ++ c1Link.data) ∧
    (tweet_body c1Summary c1Link).length = 275 := by
  refine ⟨by decide, ?_, by decide⟩
  decide

/-- C7: the client-side rounding of the summary is exactly as specified: a
summary longer than 140 characters becomes its first 138 characters plus the
single marker `…`, i.e. exactly 139 characters; a summary of at most 140
characters is returned unchanged. -/
theorem c7_summary_truncation (s : String) :
    (140 < s.length → truncate140 s = String.mk (s.data.take 138 ++ ['…']) ∧
      (truncate140 s).length = 139) ∧
    (s.length ≤ 140 → truncate140 s = s) := by
  constructor
  · intro h
    have hgt : s.length > 140 := h
    constructor
    · simp [truncate140, hgt]
    · simp only [truncate140, hgt, if_pos, length_mk, List.length_append,
        List.length_take, List.length_singleton]
      have : s.data.length = s.length := rfl
      omega
  · intro h
    have : ¬ s.length > 140 := by omega
    simp [truncate140, this]

set_option maxRecDepth 10000 in
/-- Witness for C7: the 200-character summary is longer than 140, and the
truncation theorem yields the 139-character result at it. -/
theorem c7_summary_truncation_witness :
    140 < c7Long.length ∧
    (truncate140 c7Long = String.mk (c7Long.data.take 138 ++ ['…']) ∧
      (truncate140 c7Long).length = 139) :=
  ⟨by decide, (c7_summary_truncation c7Long).1 (by decide)⟩

/-- Over exact rational arithmetic, the hour-valued age comparison
`age > MAX_AGE_HOURS` of src/main.py:172 is the integer comparison
`now - ts > 3600 * MAX_AGE_HOURS`; the executable filter uses the integer
form. -/
theorem entry_age_hours_gt_iff (e : Entry) (now maxAge : Int) :
    entry_age_hours e now > (maxAge : ℚ) ↔
      3600 * maxAge < entry_age_seconds e now := by
  cases h : e.published with
  | some ts =>
    simp only [entry_age_hours, entry_age_seconds, h, gt_iff_lt,
      lt_div_iff₀ (show (0 : ℚ) < 3600 by norm_num)]
    rw [mul_comm]
    exact_mod_cast Iff.rfl
  | none =>
    simp only [entry_age_hours, entry_age_seconds, h, gt_iff_lt]
    constructor
    · intro hm
      have : maxAge < 0 := by exact_mod_cast hm
      omega
    · intro hm
      have : maxAge < 0 := by omega
      exact_mod_cast this

/-- When the link is truthy the tracked id exists: either the `id` attribute
is present, or it defaults to the (present) link. -/
theorem entryIdOf_isSome_of_truthy (e : Entry) (h : pyTruthyStr e.link = true) :
    (entryIdOf e).isSome = true := by
  cases hi : e.id with
  | some i => simp [entryIdOf, hi]
  | none =>
    cases hl : e.link with
    | some s => simp [entryIdOf, hi, hl]
    | none => simp [pyTruthyStr, hl] at h

/-- C3 (amended): the eligibility decision is characterised exactly, with the
first guard reading "link absent **or empty**" (Python falsiness) rather than
only "absent": skip(no_link) iff the link is falsy; otherwise the tracked id
exists and, writing `i` for it, skip(already_processed) iff `i` is in the
current processed-id set; otherwise skip(stale) iff the age in hours strictly
exceeds the window; otherwise the entry is admitted. -/
theorem c3_eligibility_characterization (posted : List String) (now maxAge : Int)
    (e : Entry) :
    (decideEntry posted now maxAge e = .skipNoLink ↔ pyTruthyStr e.link = false) ∧
    (pyTruthyStr e.link = true → (entryIdOf e).isSome = true) ∧
    (pyTruthyStr e.link = true → ∀ i, entryIdOf e = some i →
      ((decideEntry posted now maxAge e = .skipAlreadyProcessed ↔ i ∈ posted) ∧
       (i ∉ posted →
         ((decideEntry posted now maxAge e = .skipStale ↔
            entry_age_hours e now > (maxAge : ℚ)) ∧
          (¬ entry_age_hours e now > (maxAge : ℚ) →
            decideEntry posted now maxAge e = .admitted))))) := by
  refine ⟨?_, entryIdOf_isSome_of_truthy e, ?_⟩
  · by_cases hl : pyTruthyStr e.link = false
    · simp [decideEntry, hl]
    · have ht : pyTruthyStr e.link = true := by
        cases hx : pyTruthyStr e.link
        · exact absurd hx hl
        · rfl
      by_cases hm : idMem posted e = true
      · simp [decideEntry, ht, hm]
      · by_cases hs : 3600 * maxAge < entry_age_seconds e now
        · simp [decideEntry, ht, hm, hs]
        · simp [decideEntry, ht, hm, hs]
  · intro ht i hi
    have hage := entry_age_hours_gt_iff e now maxAge
    have hmem : idMem posted e = decide (i ∈ posted) := by
      simp [idMem, hi]
    by_cases hp : i ∈ posted
    · have hm : idMem posted e = true := by
        rw [hmem]
        exact decide_eq_true hp
      refine ⟨⟨fun _ => hp, fun _ => by simp [decideEntry, ht, hm]⟩, ?_⟩
      intro hnp
      exact absurd hp hnp
    · have hm : ¬ idMem posted e = true := by
        rw [hmem]
        simp [hp]
      refine ⟨⟨?_, fun hc => absurd hc hp⟩, ?_⟩
      · intro h
        by_cases hs : 3600 * maxAge < entry_age_seconds e now
        · simp [decideEntry, ht, hm, hs] at h
        · simp [decideEntry, ht, hm, hs] at h
      · intro _
        constructor
        · by_cases hs : 3600 * maxAge < entry_age_seconds e now
          · simp [decideEntry, ht, hm, hs, hage]
          · simp [decideEntry, ht, hm, hs, hage]
        · intro hna
          have hs : ¬ 3600 * maxAge < entry_age_seconds e now := fun hc =>
            hna (hage.mpr hc)
          simp [decideEntry, ht, hm, hs]

/-- Counterexample to C3 as stated: this entry's link is present (not
absent), yet the filter decides skip(no_link), because the source tests
Python falsiness of the link, which also fires on the empty string. -/
theorem c3_empty_link_counterexample :
    decideEntry [] 0 168 emptyLinkEntry = .skipNoLink ∧
    emptyLinkEntry.link ≠ none := by decide

/-- Witness for C3: at a concrete fresh entry whose id `u` is already in the
set, the characterisation applies: the decision is skip(already_processed)
exactly because `u` is a member. -/
theorem c3_eligibility_witness :
    pyTruthyStr c3Entry.link = true ∧ entryIdOf c3Entry = some "u" ∧
    ((decideEntry ["u"] 1000 168 c3Entry = .skipAlreadyProcessed ↔ "u" ∈ ["u"]) ∧
     ("u" ∉ ["u"] →
       ((decideEntry ["u"] 1000 168 c3Entry = .skipStale ↔
          entry_age_hours c3Entry 1000 > ((168 : Int) : ℚ)) ∧
        (¬ entry_age_hours c3Entry 1000 > ((168 : Int) : ℚ) →
          decideEntry ["u"] 1000 168 c3Entry = .admitted)))) :=
  ⟨by decide, by decide,
    (c3_eligibility_characterization ["u"] 1000 168 c3Entry).2.2 (by decide)
      "u" (by decide)⟩

/-- Adding an element always makes it a member. -/
theorem mem_setInsert_self (x : String) (l : List String) : x ∈ setInsert x l := by
  unfold setInsert
  by_cases h : x ∈ l
  · simp [h]
  · simp [h]

/-- Elements already present are preserved by `setInsert`. -/
theorem mem_setInsert_of_mem {y : String} (x : String) {l : List String}
    (h : y ∈ l) : y ∈ setInsert x l := by
  unfold setInsert
  by_cases hx : x ∈ l
  · simpa [hx]
  · simp [hx, List.mem_append]
    exact Or.inl h

/-- C2: the dry-run matrix for one processed item. With `print-only` the only
state change is the counter (no delivery, no id, no file write); with
`record-only` there is no delivery but the id is inserted and the file saved;
with `none` exactly one payload is handed to the delivery collaborator and
the id is inserted and the file saved — and, as the last conjunct shows, the
resulting state does not depend on the delivery outcome at all. -/
theorem c2_dry_run_matrix (cfg : Config) (oracle : Oracle) (st : St) (e : Entry)
    (tweet entryId : String) (h : itemOutcome oracle e = .ready tweet entryId) :
    (cfg.dryRun = "print-only" →
      processEntry cfg oracle st e = { st with postedCount := st.postedCount + 1 }) ∧
    (cfg.dryRun = "record-only" →
      processEntry cfg oracle st e =
        { st with postedIds := setInsert entryId st.postedIds,
                  dataFile := save_posted_ids (setInsert entryId st.postedIds),
                  postedCount := st.postedCount + 1 }) ∧
    (cfg.dryRun = "none" →
      processEntry cfg oracle st e =
        { st with deliveries := st.deliveries ++ [tweet],
                  postedIds := setInsert entryId st.postedIds,
                  dataFile := save_posted_ids (setInsert entryId st.postedIds),
                  sleepSecs := st.sleepSecs + 2,
                  postedCount := st.postedCount + 1 }) ∧
    (∀ d : String → PostResp,
      processEntry cfg { oracle with deliver := d } st e = processEntry cfg oracle st e) := by
  refine ⟨?_, ?_, ?_, ?_⟩
  · intro hm
    simp [processEntry, h, hm]
  · intro hm
    simp [processEntry, h, hm]
  · intro hm
    simp [processEntry, h, hm]
  · intro d
    rfl

set_option maxRecDepth 4000 in
/-- Witness for C2: the concrete demo item reaches the branch, and in
`record-only` mode the matrix row holds at it. -/
theorem c2_dry_run_matrix_witness :
    itemOutcome demoOracle demoEntry = .ready demoTweet "i1" ∧
    processEntry recCfg demoOracle (initSt none) demoEntry =
      { initSt none with
          postedIds := setInsert "i1" (initSt none).postedIds,
          dataFile := save_posted_ids (setInsert "i1" (initSt none).postedIds),
          postedCount := (initSt none).postedCount + 1 } :=
  ⟨by decide,
    (c2_dry_run_matrix recCfg demoOracle (initSt none) demoEntry demoTweet "i1"
      (by decide)).2.1 rfl⟩

/-- C9: any `DRY_RUN` value other than the exact strings `print-only` and
`record-only` takes the final `else` of the branch, so the item is handled
exactly as in mode `none`: same delivery attempt, same id insertion, same
save, same 2-second sleep (shown both as equality with the `none`
configuration and explicitly for a completing item). -/
theorem c9_unrecognized_mode (cfg : Config) (oracle : Oracle) (st : St) (e : Entry)
    (h1 : cfg.dryRun ≠ "print-only") (h2 : cfg.dryRun ≠ "record-only") :
    processEntry cfg oracle st e =
      processEntry { cfg with dryRun := "none" } oracle st e ∧
    (∀ tweet entryId, itemOutcome oracle e = .ready tweet entryId →
      (processEntry cfg oracle st e).deliveries = st.deliveries ++ [tweet] ∧
      entryId ∈ (processEntry cfg oracle st e).postedIds ∧
      (processEntry cfg oracle st e).dataFile =
        save_posted_ids (setInsert entryId st.postedIds) ∧
      (processEntry cfg oracle st e).sleepSecs = st.sleepSecs + 2) := by
  constructor
  · unfold processEntry
    cases hio : itemOutcome oracle e with
    | errored m => rfl
    | tooShort => rfl
    | ready tweet entryId => simp [h1, h2]
  · intro tweet entryId h
    simp [processEntry, h, h1, h2, mem_setInsert_self]

set_option maxRecDepth 4000 in
/-- Witness for C9: the misspelled mode `record only` is neither recognized
string, and the item is handled exactly as under mode `none`. -/
theorem c9_unrecognized_mode_witness :
    typoCfg.dryRun ≠ "print-only" ∧ typoCfg.dryRun ≠ "record-only" ∧
    processEntry typoCfg demoOracle (initSt none) demoEntry =
      processEntry { typoCfg with dryRun := "none" } demoOracle (initSt none) demoEntry ∧
    (processEntry typoCfg demoOracle (initSt none) demoEntry).deliveries = [demoTweet] :=
  ⟨by decide, by decide,
    (c9_unrecognized_mode typoCfg demoOracle (initSt none) demoEntry
      (by decide) (by decide)).1,
    ((c9_unrecognized_mode typoCfg demoOracle (initSt none) demoEntry
      (by decide) (by decide)).2 demoTweet "i1" (by decide)).1⟩

/-- C10: the delivery function returns normally on every input — a falsy
webhook URL, a non-2xx response and a transport exception are all caught and
only logged — and consequently, in mode `none`, every item that reaches the
delivery step is recorded, saved, counted and followed by the 2-second sleep,
whatever the delivery outcome (the oracle, including its `deliver` component,
is universally quantified). -/
theorem c10_delivery_never_raises :
    (∀ (url : String) (resp : PostResp), (post_to_ifttt url resp).isOk = true) ∧
    (∀ (cfg : Config) (oracle : Oracle) (st : St) (e : Entry) (tweet entryId : String),
      cfg.dryRun = "none" → itemOutcome oracle e = .ready tweet entryId →
      (processEntry cfg oracle st e).postedIds = setInsert entryId st.postedIds ∧
      (processEntry cfg oracle st e).dataFile =
        save_posted_ids (setInsert entryId st.postedIds) ∧
      (processEntry cfg oracle st e).postedCount = st.postedCount + 1 ∧
      (processEntry cfg oracle st e).sleepSecs = st.sleepSecs + 2) := by
  constructor
  · intro url resp
    unfold post_to_ifttt
    by_cases h : (pyStrip url).isEmpty
    · simp [h, Except.isOk, Except.toBool]
    · cases resp <;> simp [h, Except.isOk, Except.toBool]
  · intro cfg oracle st e tweet entryId hm h
    simp [processEntry, h, hm]

set_option maxRecDepth 4000 in
/-- Witness for C10: in mode `none` with a webhook that reports a non-2xx
error, the demo item is still recorded, saved, counted and slept after. -/
theorem c10_delivery_never_raises_witness :
    (post_to_ifttt "" PostResp.respOk).isOk = true ∧
    (processEntry ⟨20, 168, "none", 1000⟩
        ⟨fun _ => .ok okText, fun _ _ => .ok "S", fun _ => .respErr 500 "err"⟩
        (initSt none) demoEntry).postedIds = setInsert "i1" (initSt none).postedIds ∧
    (processEntry ⟨20, 168, "none", 1000⟩
        ⟨fun _ => .ok okText, fun _ _ => .ok "S", fun _ => .respErr 500 "err"⟩
        (initSt none) demoEntry).postedCount = (initSt none).postedCount + 1 :=
  ⟨c10_delivery_never_raises.1 "" PostResp.respOk,
    ((c10_delivery_never_raises.2 ⟨20, 168, "none", 1000⟩
      ⟨fun _ => .ok okText, fun _ _ => .ok "S", fun _ => .respErr 500 "err"⟩
      (initSt none) demoEntry demoTweet "i1" rfl (by decide)).1),
    ((c10_delivery_never_raises.2 ⟨20, 168, "none", 1000⟩
      ⟨fun _ => .ok okText, fun _ _ => .ok "S", fun _ => .respErr 500 "err"⟩
      (initSt none) demoEntry demoTweet "i1" rfl (by decide)).2.2.1)⟩

/-- C6 (amended): the orderer is a permutation of the admitted list, sorted
ascending by the publish-time key, and stable (a pair already in key order
keeps its relative order); an absent timestamp is keyed as `0` — the epoch,
not a minimum of the key space — so such entries sort before all post-epoch
entries but after pre-epoch ones; the spec's example [T+3, T+1, T+2] comes
out as [T+1, T+2, T+3]. -/
theorem c6_ordering :
    (∀ l : List Entry, List.Perm (orderEntries l) l) ∧
    (∀ l : List Entry, (orderEntries l).Sorted entryOrder) ∧
    (∀ (a b : Entry) (l : List Entry), entryOrder a b → List.Sublist [a, b] l →
      List.Sublist [a, b] (orderEntries l)) ∧
    (∀ e : Entry, e.published = none → published_ts e = 0) ∧
    orderEntries [entryT 3, entryT 1, entryT 2] = [entryT 1, entryT 2, entryT 3] := by
  refine ⟨?_, ?_, ?_, ?_, by decide⟩
  · intro l
    exact List.perm_insertionSort entryOrder l
  · intro l
    exact List.sorted_insertionSort entryOrder l
  · intro a b l hab hsub
    exact List.pair_sublist_insertionSort hab hsub
  · intro e h
    simp [published_ts, h]

/-- Counterexample to C6 as stated: with a pre-epoch entry in the feed, the
entry without a publish time is NOT processed first — the missing timestamp
is keyed as `0` (the epoch), which is not the minimum possible key, so the
pre-epoch entry sorts before it. -/
theorem c6_pre_epoch_counterexample :
    orderEntries [preEpochEntry, noTsEntry] = [preEpochEntry, noTsEntry] ∧
    noTsEntry.published = none ∧ preEpochEntry.published = some (-3600) := by decide

/-- Witness for C6: two equal-key entries in feed order inside a larger list
remain in that order after sorting (stability), and the key of a missing
timestamp is `0`. -/
theorem c6_ordering_witness :
    entryOrder twinA twinB ∧
    List.Sublist [twinA, twinB] [entryT 5, twinA, twinB] ∧
    List.Sublist [twinA, twinB] (orderEntries [entryT 5, twinA, twinB]) ∧
    published_ts noTsEntry = 0 := by
  refine ⟨by decide, by decide, ?_, c6_ordering.2.2.2.1 noTsEntry rfl⟩
  exact c6_ordering.2.2.1 twinA twinB [entryT 5, twinA, twinB]
    (by decide) (by decide)

/-- C8: a run over an empty feed, and a run whose filter admits nothing, both
return the initial state unchanged — processed count 0, the state file as
loaded, nothing delivered, no sleeping — and `main` is a total function, so
every run terminates normally with its report. -/
theorem c8_empty_run (cfg : Config) (oracle : Oracle) (entries : List Entry)
    (file0 : Option (List String)) :
    (entries = [] → main cfg oracle entries file0 = initSt file0) ∧
    (eligibleEntries cfg (load_posted_ids file0) entries = [] →
      main cfg oracle entries file0 = initSt file0) ∧
    (initSt file0).postedCount = 0 ∧ (initSt file0).dataFile = file0 ∧
    (initSt file0).deliveries = [] ∧ (initSt file0).sleepSecs = 0 := by
  refine ⟨?_, ?_, rfl, rfl, rfl, rfl⟩
  · intro h
    subst h
    rfl
  · intro h
    unfold main
    by_cases he : entries.isEmpty
    · simp [he]
    · have : eligibleEntries cfg (initSt file0).postedIds entries = [] := h
      simp [he, this]

/-- Witness for C8: a feed whose single entry is stale admits nothing, and
the run returns the initial state with count 0 and the file untouched. -/
theorem c8_empty_run_witness :
    eligibleEntries staleCfg (load_posted_ids (some ["k"])) [staleEntry] = [] ∧
    main staleCfg demoOracle [staleEntry] (some ["k"]) = initSt (some ["k"]) ∧
    (initSt (some ["k"])).postedCount = 0 ∧
    (initSt (some ["k"])).dataFile = some ["k"] :=
  ⟨by decide,
    (c8_empty_run staleCfg demoOracle [staleEntry] (some ["k"])).2.1 (by decide),
    (c8_empty_run staleCfg demoOracle [staleEntry] (some ["k"])).2.2.1,
    (c8_empty_run staleCfg demoOracle [staleEntry] (some ["k"])).2.2.2.1⟩

/-- One loop iteration increments `posted_count` exactly when the item
completes, whatever the mode. -/
theorem processEntry_postedCount (cfg : Config) (oracle : Oracle) (st : St)
    (e : Entry) :
    (processEntry cfg oracle st e).postedCount =
      st.postedCount + (if completes oracle e then 1 else 0) := by
  unfold processEntry completes
  cases h : itemOutcome oracle e with
  | errored m => simp
  | tooShort => simp
  | ready tweet entryId =>
    by_cases h1 : cfg.dryRun = "print-only"
    · simp [h1]
    · by_cases h2 : cfg.dryRun = "record-only" <;> simp [h1, h2]

/-- One loop iteration never removes an id from the in-memory set. -/
theorem processEntry_postedIds_mono {y : String} (cfg : Config) (oracle : Oracle)
    (st : St) (e : Entry) (h : y ∈ st.postedIds) :
    y ∈ (processEntry cfg oracle st e).postedIds := by
  unfold processEntry
  cases hio : itemOutcome oracle e with
  | errored m => simpa
  | tooShort => simpa
  | ready tweet entryId =>
    by_cases h1 : cfg.dryRun = "print-only"
    · simpa [h1]
    · by_cases h2 : cfg.dryRun = "record-only" <;>
        simp [h1, h2, mem_setInsert_of_mem _ h]

/-- The loop never removes an id from the in-memory set. -/
theorem runLoop_postedIds_mono {y : String} (cfg : Config) (oracle : Oracle) :
    ∀ (l : List Entry) (st : St), y ∈ st.postedIds →
      y ∈ (runLoop cfg oracle st l).postedIds := by
  intro l
  induction l with
  | nil => intro st h; exact h
  | cons e l ih =>
    intro st h
    exact ih (processEntry cfg oracle st e) (processEntry_postedIds_mono cfg oracle st e h)

/-- C5: failure isolation of the processing loop. An item whose processing
raises is caught at item level and only appends the handler's log line (which
contains the exception text); the loop is a total fold, so no item failure
aborts the run; the final count is the initial count plus exactly the number
of items that completed; and in every recording mode each completing item's
id is in the final in-memory set. -/
theorem c5_failure_isolation (cfg : Config) (oracle : Oracle) (st : St)
    (l : List Entry) :
    (∀ (st2 : St) (e : Entry) (m : String), itemOutcome oracle e = .errored m →
      processEntry cfg oracle st2 e =
        { st2 with failLogs :=
            st2.failLogs ++ ["  → 失敗: " ++ m ++ ". 次のエントリを試します。"] }) ∧
    ((runLoop cfg oracle st l).postedCount =
      st.postedCount + (l.filter (completes oracle)).length) ∧
    (cfg.dryRun ≠ "print-only" →
      ∀ e ∈ l, ∀ tweet i, itemOutcome oracle e = .ready tweet i →
        i ∈ (runLoop cfg oracle st l).postedIds) := by
  refine ⟨?_, ?_, ?_⟩
  · intro st2 e m h
    simp [processEntry, h]
  · induction l generalizing st with
    | nil => simp [runLoop]
    | cons e l ih =>
      show (runLoop cfg oracle (processEntry cfg oracle st e) l).postedCount = _
      rw [ih, processEntry_postedCount]
      by_cases hc : completes oracle e
      · simp [List.filter_cons, hc]
        omega
      · simp [List.filter_cons, hc]
  · intro hm
    induction l generalizing st with
    | nil => intro e he; simp at he
    | cons a l ih =>
      intro e he tweet i h
      rcases List.mem_cons.mp he with rfl | he'
      · have hstep : i ∈ (processEntry cfg oracle st e).postedIds := by
          unfold processEntry
          rw [h]
          by_cases h2 : cfg.dryRun = "record-only" <;>
            simp [hm, h2, mem_setInsert_self]
        exact runLoop_postedIds_mono cfg oracle l _ hstep
      · exact ih (processEntry cfg oracle st a) e he' tweet i h

set_option maxRecDepth 4000 in
/-- Counterexample to C5 as stated: when the fetch for the entry titled
`TITLE` raises `boom`, the handler's log line is exactly the fixed text plus
the exception message — the entry's title does not occur in it (the source
prints `f"  → 失敗: {e}. ..."`, with no title). -/
theorem c5_failure_log_lacks_title :
    (processEntry stdCfg c5FailOracle (initSt none) c5Entry).failLogs =
      ["  → 失敗: boom. 次のエントリを試します。"] ∧
    ¬ List.IsInfix "TITLE".data "  → 失敗: boom. 次のエントリを試します。".data ∧
    c5Entry.title = some "TITLE" := by decide

set_option maxRecDepth 4000 in
/-- Witness for C5: with the second of three admitted entries failing, the
loop still counts exactly the 2 completed items and records the ids of the
first and third. -/
theorem c5_failure_isolation_witness :
    ((runLoop stdCfg c5Oracle3 (initSt none) [e1, e2, e3]).postedCount =
      (initSt none).postedCount +
        ([e1, e2, e3].filter (completes c5Oracle3)).length) ∧
    ([e1, e2, e3].filter (completes c5Oracle3)).length = 2 ∧
    "i1" ∈ (runLoop stdCfg c5Oracle3 (initSt none) [e1, e2, e3]).postedIds ∧
    "i3" ∈ (runLoop stdCfg c5Oracle3 (initSt none) [e1, e2, e3]).postedIds :=
  ⟨(c5_failure_isolation stdCfg c5Oracle3 (initSt none) [e1, e2, e3]).2.1,
   by decide,
   (c5_failure_isolation stdCfg c5Oracle3 (initSt none) [e1, e2, e3]).2.2
     (by decide) e1 (by decide) (tweet_body "S" "L1") "i1" (by decide),
   (c5_failure_isolation stdCfg c5Oracle3 (initSt none) [e1, e2, e3]).2.2
     (by decide) e3 (by decide) (tweet_body "S" "L3") "i3" (by decide)⟩

/-- Membership in the accumulator-based dedup: an element is kept iff it
occurs in the input and was not already seen. -/
theorem mem_pyDedup {a : String} :
    ∀ (l seen : List String), a ∈ pyDedup seen l ↔ a ∈ l ∧ a ∉ seen := by
  intro l
  induction l with
  | nil => intro seen; simp [pyDedup]
  | cons x xs ih =>
    intro seen
    unfold pyDedup
    by_cases hx : x ∈ seen
    · rw [if_pos hx, ih]
      constructor
      · rintro ⟨h1, h2⟩
        exact ⟨List.mem_cons_of_mem x h1, h2⟩
      · rintro ⟨h1, h2⟩
        rcases List.mem_cons.mp h1 with rfl | h1'
        · exact absurd hx h2
        · exact ⟨h1', h2⟩
    · rw [if_neg hx]
      constructor
      · intro h
        rcases List.mem_cons.mp h with rfl | h'
        · exact ⟨List.mem_cons_self a xs, hx⟩
        · rcases (ih (x :: seen)).mp h' with ⟨h1, h2⟩
          refine ⟨List.mem_cons_of_mem x h1, fun hc => h2 (List.mem_cons_of_mem x hc)⟩
      · rintro ⟨h1, h2⟩
        rcases List.mem_cons.mp h1 with rfl | h1'
        · exact List.mem_cons_self a _
        · by_cases hax : a = x
          · subst hax
            exact List.mem_cons_self a _
          · refine List.mem_cons_of_mem x ((ih (x :: seen)).mpr ⟨h1', ?_⟩)
            intro hc
            rcases List.mem_cons.mp hc with h | h
            · exact hax h
            · exact h2 h

/-- Loading what `save_posted_ids` wrote recovers every id, provided the set
fitted under the 200-entry cap (so the `[:200]` truncation dropped nothing). -/
theorem mem_load_save {ids : List String} (h : ids.length ≤ 200) {i : String}
    (hi : i ∈ ids) : i ∈ load_posted_ids (save_posted_ids ids) := by
  unfold load_posted_ids save_posted_ids
  have hlen : (ids.insertionSort idOrder).length ≤ 200 := by
    rw [List.length_insertionSort]
    exact h
  rw [Option.getD_some, List.take_of_length_le hlen, mem_pyDedup]
  exact ⟨(List.mem_insertionSort idOrder).mpr hi, List.not_mem_nil i⟩

/-- Each loop iteration preserves the file/set invariant: non-recording
outcomes leave both components unchanged, recording outcomes re-save the
updated set. -/
theorem processEntry_fileInv {file0 : Option (List String)} (cfg : Config)
    (oracle : Oracle) {st : St} (e : Entry) (h : fileInv file0 st) :
    fileInv file0 (processEntry cfg oracle st e) := by
  unfold processEntry
  cases hio : itemOutcome oracle e with
  | errored m => exact h
  | tooShort => exact h
  | ready tweet entryId =>
    by_cases h1 : cfg.dryRun = "print-only"
    · simpa [h1] using h
    · by_cases h2 : cfg.dryRun = "record-only"
      · simp only [h1, h2, if_false, if_pos rfl, if_neg]
        exact Or.inr rfl
      · simp only [h1, h2, if_false]
        exact Or.inr rfl

/-- The loop preserves the file/set invariant. -/
theorem runLoop_fileInv {file0 : Option (List String)} (cfg : Config)
    (oracle : Oracle) :
    ∀ (l : List Entry) (st : St), fileInv file0 st →
      fileInv file0 (runLoop cfg oracle st l) := by
  intro l
  induction l with
  | nil => intro st h; exact h
  | cons e l ih =>
    intro st h
    exact ih (processEntry cfg oracle st e) (processEntry_fileInv cfg oracle e h)

/-- A whole run maintains the file/set invariant from its initial state. -/
theorem main_fileInv (cfg : Config) (oracle : Oracle) (entries : List Entry)
    (file0 : Option (List String)) :
    fileInv file0 (main cfg oracle entries file0) := by
  unfold main
  by_cases he : entries.isEmpty
  · simp only [he, if_pos]
    exact Or.inl ⟨rfl, rfl⟩
  · simp only [he, if_false]
    by_cases hel : eligibleEntries cfg (initSt file0).postedIds entries = []
    · simp only [hel, List.isEmpty_nil, if_pos]
      exact Or.inl ⟨rfl, rfl⟩
    · have : (eligibleEntries cfg (initSt file0).postedIds entries).isEmpty = false := by
        cases hx : eligibleEntries cfg (initSt file0).postedIds entries with
        | nil => exact absurd hx hel
        | cons a l => rfl
      simp only [this, if_false]
      exact runLoop_fileInv cfg oracle _ _ (Or.inl ⟨rfl, rfl⟩)

/-- An admitted entry's tracked id is not in the set the filter ran against. -/
theorem admitted_id_not_mem {posted : List String} {now maxAge : Int} {e : Entry}
    (h : decideEntry posted now maxAge e = .admitted) {i : String}
    (hi : entryIdOf e = some i) : i ∉ posted := by
  intro hc
  have hm : idMem posted e = true := by
    simp [idMem, hi, hc]
  unfold decideEntry at h
  by_cases hl : pyTruthyStr e.link = false
  · simp [hl] at h
  · simp [hl, hm] at h

/-- C4 (amended): as long as the final in-memory set still fits under the
200-entry persistence cap (so `sorted(...)[:200]` drops nothing), a second
run over the same feed finds every id of the first run's final set — in
particular every id recorded during the first run — in the loaded state, and
admits no entry tracked under such an id, so none of those items can be
dispatched again. -/
theorem c4_idempotent_within_cap (cfg : Config) (oracle : Oracle)
    (entries : List Entry) (file0 : Option (List String))
    (h : (main cfg oracle entries file0).postedIds.length ≤ 200) :
    (∀ i ∈ (main cfg oracle entries file0).postedIds,
      i ∈ load_posted_ids (main cfg oracle entries file0).dataFile) ∧
    (∀ e ∈ eligibleEntries cfg
        (load_posted_ids (main cfg oracle entries file0).dataFile) entries,
      ∀ i, entryIdOf e = some i → i ∉ (main cfg oracle entries file0).postedIds) := by
  have hmem : ∀ i ∈ (main cfg oracle entries file0).postedIds,
      i ∈ load_posted_ids (main cfg oracle entries file0).dataFile := by
    rcases main_fileInv cfg oracle entries file0 with ⟨hf, hp⟩ | hf
    · intro i hi
      rw [hf]
      rw [hp] at hi
      exact hi
    · intro i hi
      rw [hf]
      exact mem_load_save h hi
  refine ⟨hmem, ?_⟩
  intro e he i hid hc
  have hadmit : decideEntry
      (load_posted_ids (main cfg oracle entries file0).dataFile)
      cfg.now cfg.maxAgeHours e = .admitted := by
    have := List.mem_filter.mp (by
      unfold eligibleEntries at he
      exact he)
    simpa using this.2
  exact admitted_id_not_mem hadmit hid (hmem i hc)

set_option maxRecDepth 4000 in
/-- Witness for C4: after a run that records `bb` next to the loaded `aa`,
the set has 2 ≤ 200 elements, every member is found by a reload, and the
unchanged feed admits nothing tracked under a recorded id. -/
theorem c4_idempotent_within_cap_witness :
    (main stdCfg demoOracle [c4SmallEntry] (some ["aa"])).postedIds.length ≤ 200 ∧
    (∀ i ∈ (main stdCfg demoOracle [c4SmallEntry] (some ["aa"])).postedIds,
      i ∈ load_posted_ids
        (main stdCfg demoOracle [c4SmallEntry] (some ["aa"])).dataFile) ∧
    (∀ e ∈ eligibleEntries stdCfg
        (load_posted_ids (main stdCfg demoOracle [c4SmallEntry] (some ["aa"])).dataFile)
        [c4SmallEntry],
      ∀ i, entryIdOf e = some i →
        i ∉ (main stdCfg demoOracle [c4SmallEntry] (some ["aa"])).postedIds) :=
  ⟨by decide,
   (c4_idempotent_within_cap stdCfg demoOracle [c4SmallEntry] (some ["aa"])
     (by decide)).1,
   (c4_idempotent_within_cap stdCfg demoOracle [c4SmallEntry] (some ["aa"])
     (by decide)).2⟩

set_option maxRecDepth 100000 in
set_option maxHeartbeats 4000000 in
/-- Counterexample to C4 as stated: with 200 ids already persisted, the run
that dispatches `zzz` saves `sorted(ids)[:200]`, which drops `zzz` (it sorts
last); the second run therefore does not find `zzz` in the loaded state and
delivers the same entry again — the same eligible item is dispatched twice in
immediate succession. -/
theorem c4_truncation_breaks_idempotence :
    "zzz" ∈ (main stdCfg demoOracle [capEntry] (some ids200)).postedIds ∧
    "zzz" ∉ load_posted_ids (main stdCfg demoOracle [capEntry] (some ids200)).dataFile ∧
    (main stdCfg demoOracle [capEntry] (some ids200)).deliveries.length = 1 ∧
    (main stdCfg demoOracle [capEntry]
      (main stdCfg demoOracle [capEntry] (some ids200)).dataFile).deliveries.length = 1 := by
  refine ⟨by decide, by decide, by decide, by decide⟩

end LocaXBot
